import Mathlib

/-!
Verification of the autoSearch listing crawler against its specification.

The definitions below are a shallow embedding of the repository's Python
sources: `src/models/car.py` (the listing record), `src/database/storage.py`
(the SQLite-backed store), `src/main.py` (the per-cycle reconciliation loop),
`src/scraper/autoscout.py` (URL building, page partitioning and the field
extraction cascade) and `src/notifier/notification.py` (title cleanup).
Timestamps are modelled as natural numbers, the SQLite table as a list of
records, and Python strings as Lean strings (with character-list helpers that
mirror the exact regular-expression and parsing steps of the source).
-/

namespace AutoSearch

/-- The listing record, mirroring the `CarListing` dataclass of
`src/models/car.py` (field for field; `datetime` fields become `Nat`). -/
structure CarListing where
  id : String
  make : String
  model : String
  price : Int
  year : Int
  kilometers : Int
  location : String
  url : String
  first_seen : Nat
  last_seen : Nat
  title : Option String := none
  description : Option String := none
deriving DecidableEq

/-- `Database.get_listing` (`src/database/storage.py`): `SELECT * FROM
listings WHERE id = ?` followed by `fetchone`, i.e. the first row whose id
matches. -/
def get_listing (db : List CarListing) (i : String) : Option CarListing :=
  db.find? (fun l => l.id == i)

/-- `Database.add_listing` (`src/database/storage.py`): `INSERT OR REPLACE`
keyed on the primary key `id` - any row with the same id is replaced by the
new row. -/
def add_listing (db : List CarListing) (r : CarListing) : List CarListing :=
  db.filter (fun l => !(l.id == r.id)) ++ [r]

/-- `Database.remove_old_listings` (`src/database/storage.py`).  The result is
(returned count, remaining table, whether the unconditional
`DELETE FROM listings` arm of the inner `if current_ids:` / `else` was
executed).  The early `if not current_ids: return 0` and the duplicated
`if current_ids:` guards of the count query and of the delete are translated
one for one. -/
def remove_old_listings (db : List CarListing) (current_ids : List String) :
    Nat × List CarListing × Bool :=
  if current_ids.isEmpty then (0, db, false)
  else
    let count :=
      if !current_ids.isEmpty then
        (db.filter (fun l => !(current_ids.contains l.id))).length
      else db.length
    if !current_ids.isEmpty then
      (count, db.filter (fun l => current_ids.contains l.id), false)
    else
      (count, [], true)

/-- Per-listing classification in the main loop of `src/main.py`: a listing
id absent from the store is `new`, a re-observed one is `updated`. -/
inductive Classification where
  | new
  | updated
deriving DecidableEq

/-- One iteration of the `for listing in listings:` body of `src/main.py`
(lines 204-217): look the id up; if absent insert the extracted record and
notify; if present set `last_seen = now` on the STORED record and re-persist
it (the other stored fields are left as they were).  The returned `Bool`
records whether `notifier.notify_new_listing` was called. -/
def processListing (db : List CarListing) (listing : CarListing) (now : Nat) :
    List CarListing × Classification × Bool :=
  match get_listing db listing.id with
  | none => (add_listing db listing, Classification.new, true)
  | some existing =>
      (add_listing db { existing with last_seen := now }, Classification.updated, false)

/-- Repeated reconciliation of observations over successive cycles: each pair
is one observed record together with the `datetime.now()` of its cycle. -/
def processCycles (db : List CarListing) (obs : List (CarListing × Nat)) :
    List CarListing :=
  obs.foldl (fun d p => (processListing d p.1 p.2).1) db

/-- Stored record for the concrete reconciliation examples. -/
def exStoredA : CarListing :=
  { id := "A", make := "Volkswagen", model := "T5", price := 100, year := 2010,
    kilometers := 50000, location := "Berlin 10115", url := "https://e/a",
    first_seen := 1, last_seen := 1, title := some "old title" }

/-- A later observation of the same listing id with a changed price, year,
kilometers, location, url and title. -/
def exObsA : CarListing :=
  { id := "A", make := "Volkswagen", model := "T5", price := 200, year := 2011,
    kilometers := 60000, location := "Hamburg 20095", url := "https://e/a2",
    first_seen := 5, last_seen := 5, title := some "new title" }

/-- A one-row store holding `exStoredA`. -/
def exDb1 : List CarListing := [exStoredA]

/-- Two further cycles re-observing id `A` at times 7 and 9. -/
def exCycleObs : List (CarListing × Nat) := [(exObsA, 7), ({ exObsA with price := 300 }, 9)]

/-- Records for the removal-pass examples: stored ids A, B, C. -/
def exRecB : CarListing :=
  { exStoredA with id := "B", url := "https://e/b" }

/-- Stored record with id C. -/
def exRecC : CarListing :=
  { exStoredA with id := "C", url := "https://e/c" }

/-- Store with ids A, B, C. -/
def exDb3 : List CarListing := [exStoredA, exRecB, exRecC]

/-- A cycle that observed ids A and C but not B. -/
def exIds2 : List String := ["A", "C"]

/-! ### Character-level helpers

These mirror, step for step, the Python string and regular-expression
operations used by `src/scraper/autoscout.py` and
`src/notifier/notification.py`.  All are structurally recursive so that the
kernel can evaluate them on concrete inputs. -/

/-- Exact prefix test on character lists. -/
def leadsWith : List Char → List Char → Bool
  | [], _ => true
  | _ :: _, [] => false
  | p :: ps, c :: cs => (p == c) && leadsWith ps cs

/-- Case-insensitive prefix test (ASCII lowering, as `re.IGNORECASE` behaves
on the make/model names appearing in the source's patterns). -/
def ciLeadsWith : List Char → List Char → Bool
  | [], _ => true
  | _ :: _, [] => false
  | p :: ps, c :: cs => (p.toLower == c.toLower) && ciLeadsWith ps cs

/-- Substring containment, as Python's `in` on strings. -/
def containsSeq (pat : List Char) : List Char → Bool
  | [] => pat.isEmpty
  | c :: cs => leadsWith pat (c :: cs) || containsSeq pat cs

/-- Numeric value of a digit list (`int` on a digits-only string). -/
def natOfDigits (cs : List Char) : Nat :=
  cs.foldl (fun a c => a * 10 + (c.toNat - 48)) 0

/-- `re.sub(r'[^\d]', '', s)`: keep only the digits. -/
def digitsOnly (cs : List Char) : List Char := cs.filter Char.isDigit

/-- Leading/trailing whitespace removal, as Python's `str.strip()`. -/
def trimWs (cs : List Char) : List Char :=
  ((cs.dropWhile Char.isWhitespace).reverse.dropWhile Char.isWhitespace).reverse

/-- Digit run with single underscores allowed between digits, the tail of the
grammar accepted by Python's `int` after its first digit. -/
def pyDigitsRest : List Char → Bool
  | [] => true
  | '_' :: c :: cs => c.isDigit && pyDigitsRest cs
  | c :: cs => c.isDigit && pyDigitsRest cs

/-- Unsigned part of Python's `int(s)`: a non-empty digit run, underscores
permitted between digits. -/
def pyIntDigits (cs : List Char) : Option Nat :=
  match cs with
  | [] => none
  | c :: rest =>
    if c.isDigit && pyDigitsRest rest then some (natOfDigits (List.filter Char.isDigit cs))
    else none

/-- Python's `int(s)` on a string: surrounding whitespace stripped, optional
sign, digits; `none` models the `ValueError` the source catches. -/
def pythonInt (s : String) : Option Int :=
  match trimWs s.data with
  | '-' :: rest => (pyIntDigits rest).map (fun n => -(n : Int))
  | '+' :: rest => (pyIntDigits rest).map (fun n => (n : Int))
  | cs => (pyIntDigits cs).map (fun n => (n : Int))

/-- Does the pattern two-digits, separator, four-digits match at the head of
the list?  On success the value is the four-digit group. -/
def matchSepHere (sep : Char) (l : List Char) : Option Nat :=
  match l with
  | c1 :: c2 :: c3 :: c4 :: c5 :: c6 :: c7 :: _ =>
    if c1.isDigit && c2.isDigit && (c3 == sep) && c4.isDigit && c5.isDigit &&
        c6.isDigit && c7.isDigit then
      some (natOfDigits [c4, c5, c6, c7])
    else none
  | _ => none

/-- Leftmost match of the two-digits, separator, four-digits pattern, i.e.
`re.search` for the source's `MM-YYYY` (or `MM/YYYY`) expressions, returning
the year group. -/
def searchSepYYYY (sep : Char) : List Char → Option Nat
  | [] => none
  | c :: tail =>
    match matchSepHere sep (c :: tail) with
    | some y => some y
    | none => searchSepYYYY sep tail

/-- Leftmost run of four consecutive digits (`re.search` of a bare four-digit
year). -/
def searchYYYY : List Char → Option Nat
  | c1 :: c2 :: c3 :: c4 :: rest =>
    if c1.isDigit && c2.isDigit && c3.isDigit && c4.isDigit then
      some (natOfDigits [c1, c2, c3, c4])
    else searchYYYY (c2 :: c3 :: c4 :: rest)
  | _ => none

/-- Leftmost match of digits optionally followed by a dot and more digits -
the search the source runs on the page header title - with the dot (a
thousands separator) removed before taking the numeric value. -/
def firstNumberToken : List Char → Option Nat
  | [] => none
  | c :: cs =>
    if c.isDigit then
      let ds := (c :: cs).takeWhile Char.isDigit
      match (c :: cs).dropWhile Char.isDigit with
      | '.' :: r2 =>
        let fs := r2.takeWhile Char.isDigit
        if fs.isEmpty then some (natOfDigits ds) else some (natOfDigits (ds ++ fs))
      | _ => some (natOfDigits ds)
    else firstNumberToken cs

/-- Total-count extraction from the `listHeaderTitle` string: first number
token, thousands separator removed, converted to an integer. -/
def extractNumber (s : String) : Option Nat :=
  firstNumberToken s.data

/-- Python's `s.split(sep)` on a single separator character (empty pieces
kept, as the source's `url.split('/')`). -/
def splitOnChar (sep : Char) : List Char → List (List Char)
  | [] => [[]]
  | c :: cs =>
    if c == sep then [] :: splitOnChar sep cs
    else
      match splitOnChar sep cs with
      | w :: ws => (c :: w) :: ws
      | [] => [[c]]

/-- `url.split('/')[-1]`: the trailing path segment of a link. -/
def lastSegment (s : String) : String :=
  String.mk ((splitOnChar '/' s.data).getLastD [])

/-! ### The field-extraction cascade of `AutoScoutScraper.extract_listing_details` -/

/-- One entry of the embedded `vehicleDetails` JSON array; `dataVal` models
the entry's `data` key and `iconName` its `iconName` key (`none` when the key
is missing, in which case the source skips the entry). -/
structure VDetail where
  dataVal : Option String
  iconName : Option String
deriving DecidableEq

/-- The embedded `tracking` JSON object: the three keys the source reads,
`none` when absent.  Values are carried as strings; numeric JSON values
behave the same under `int(...)`. -/
structure Tracking where
  firstRegistration : Option String
  mileage : Option String
  price : Option String
deriving DecidableEq

/-- The embedded `price` JSON object: only `priceFormatted` is read. -/
structure PriceObj where
  priceFormatted : Option String
deriving DecidableEq

/-- One listing fragment (an `article` element) as the extractor reads it:
its `id` attribute (empty string when absent, as `element.get('id','')`), the
`href` of its first link, its `h2` text, the five inline `data-` attributes,
the three embedded JSON sources (`none` when not found or unparseable - both
cases make the source skip the block), the `.location` text fallback, and
whether some ancestor `div` carries a `recommendation` class (used by the
page partitioner's fallback classification). -/
structure Fragment where
  idAttr : String := ""
  href : Option String := none
  h2Title : Option String := none
  dataMileage : Option String := none
  dataFirstRegistration : Option String := none
  dataPrice : Option String := none
  dataListingCity : Option String := none
  dataListingZipCode : Option String := none
  vehicleDetails : Option (List VDetail) := none
  tracking : Option Tracking := none
  priceObj : Option PriceObj := none
  locationText : Option String := none
  ancestorRecommendation : Bool := false
deriving DecidableEq

/-- Kilometers from the `data-mileage` attribute: `int(...)`, with a failed
conversion leaving the sentinel 0. -/
def attrKilometers (e : Fragment) : Int :=
  match e.dataMileage with
  | some s =>
    match pythonInt s with
    | some v => v
    | none => 0
  | none => 0

/-- Year from the `data-first-registration` attribute: first the `MM-YYYY`
pattern, then a bare four-digit year. -/
def attrYear (e : Fragment) : Int :=
  match e.dataFirstRegistration with
  | some s =>
    match searchSepYYYY '-' s.data with
    | some y => (y : Int)
    | none =>
      match searchYYYY s.data with
      | some y => (y : Int)
      | none => 0
  | none => 0

/-- Price from the `data-price` attribute: `int(...)`, failures keep 0. -/
def attrPrice (e : Fragment) : Int :=
  match e.dataPrice with
  | some s =>
    match pythonInt s with
    | some v => v
    | none => 0
  | none => 0

/-- Location from `data-listing-city` / `data-listing-zip-code` (defaults
empty): set only when one of them is non-empty, joined with a space and
stripped. -/
def attrLocation (e : Fragment) : String :=
  let city := e.dataListingCity.getD ""
  let zipCode := e.dataListingZipCode.getD ""
  if city ≠ "" ∨ zipCode ≠ "" then String.mk (trimWs (city ++ " " ++ zipCode).data)
  else ""

/-- The `for detail in vehicle_details:` loop (FALLBACK 1): entries with both
keys are routed by icon name - a `mileage` icon fills kilometers (digits-only
text, skipped when empty), otherwise a `calendar` icon fills the year
(`MM/YYYY` first, then a bare year) - each only while the field is still 0. -/
def processVDetails : List VDetail → Int → Int → Int × Int
  | [], km, yr => (km, yr)
  | d :: rest, km, yr =>
    match d.dataVal, d.iconName with
    | some dat, some icon =>
      if containsSeq "mileage".data icon.data ∧ km = 0 then
        if (digitsOnly dat.data).isEmpty then processVDetails rest km yr
        else processVDetails rest ((natOfDigits (digitsOnly dat.data) : Nat) : Int) yr
      else if containsSeq "calendar".data icon.data ∧ yr = 0 then
        match searchSepYYYY '/' dat.data with
        | some y => processVDetails rest km (y : Int)
        | none =>
          match searchYYYY dat.data with
          | some y => processVDetails rest km (y : Int)
          | none => processVDetails rest km yr
      else processVDetails rest km yr
    | _, _ => processVDetails rest km yr

/-- FALLBACK 1: the `vehicleDetails` array is consulted only while one of
kilometers, year, price is still unresolved; it can update kilometers and
year. -/
def fallback1 (e : Fragment) (km yr price : Int) : Int × Int :=
  if km = 0 ∨ yr = 0 ∨ price = 0 then
    match e.vehicleDetails with
    | some details => processVDetails details km yr
    | none => (km, yr)
  else (km, yr)

/-- FALLBACK 2: the `tracking` object, consulted only while some field is
still unresolved; each of year (`MM-YYYY` only), kilometers and price is
taken from it only while that field is still 0. -/
def fallback2 (e : Fragment) (km yr price : Int) : Int × Int × Int :=
  if km = 0 ∨ yr = 0 ∨ price = 0 then
    match e.tracking with
    | some tr =>
      (match tr.mileage with
       | some m =>
         if km = 0 then
           match pythonInt m with
           | some v => v
           | none => km
         else km
       | none => km,
       match tr.firstRegistration with
       | some fr =>
         if yr = 0 then
           match searchSepYYYY '-' fr.data with
           | some y => (y : Int)
           | none => yr
         else yr
       | none => yr,
       match tr.price with
       | some p =>
         if price = 0 then
           match pythonInt p with
           | some v => v
           | none => price
         else price
       | none => price)
    | none => (km, yr, price)
  else (km, yr, price)

/-- FALLBACK 3: the `price` object's `priceFormatted` string, digits-only
extraction, used only if price is still 0. -/
def fallback3 (e : Fragment) (price : Int) : Int :=
  if price = 0 then
    match e.priceObj with
    | some po =>
      match po.priceFormatted with
      | some pf =>
        if (digitsOnly pf.data).isEmpty then price
        else ((natOfDigits (digitsOnly pf.data) : Nat) : Int)
      | none => price
    | none => price
  else price

/-- FALLBACK 4: the `.location` element's text, used only if the location is
still empty. -/
def fallback4 (e : Fragment) (location : String) : String :=
  if location = "" then
    match e.locationText with
    | some t => t
    | none => location
  else location

/-- Identifier resolution: the fragment's own `id` attribute, else the
trailing path segment of its link, else empty (no record). -/
def resolveListingId (e : Fragment) : String :=
  if e.idAttr ≠ "" then e.idAttr
  else
    match e.href with
    | some u => lastSegment u
    | none => ""

/-- `AutoScoutScraper.extract_listing_details`: the full cascade.  `t1` and
`t2` are the two successive `datetime.now()` calls that become `first_seen`
and `last_seen`.  Returns `none` exactly when no identifier resolves. -/
def extract_listing_details (base_url : String) (e : Fragment)
    (make model : String) (t1 t2 : Nat) : Option CarListing :=
  let listing_id := resolveListingId e
  let url := e.href.getD ""
  let full_url := if url.data.head? = some '/' then base_url ++ url else url
  let title := e.h2Title.getD ""
  let km0 := attrKilometers e
  let yr0 := attrYear e
  let pr0 := attrPrice e
  let loc0 := attrLocation e
  let f1 := fallback1 e km0 yr0 pr0
  let f2 := fallback2 e f1.1 f1.2 pr0
  let pr3 := fallback3 e f2.2.2
  let loc1 := fallback4 e loc0
  if listing_id = "" then none
  else
    some { id := listing_id, make := make, model := model, price := pr3,
           year := f2.2.1, kilometers := f2.1, location := loc1,
           url := full_url, first_seen := t1, last_seen := t2,
           title := some title, description := none }

/-- A numeric source string (an inline attribute or tracking value) is
benign: whenever it parses as an integer, the integer is non-negative. -/
def nonNegSrc (o : Option String) : Prop :=
  ∀ s v, o = some s → pythonInt s = some v → 0 ≤ v

/-- Fragment for the C6 witness: a valid non-zero inline `data-price` and a
tracking object that also carries a price. -/
def exFrag6 : Fragment :=
  { idAttr := "X6", dataPrice := some "500",
    tracking := some { firstRegistration := none, mileage := none, price := some "300" } }

/-- The record extraction produces for `exFrag6`. -/
def exRec6 : CarListing :=
  { id := "X6", make := "Volkswagen", model := "T5", price := 500, year := 0,
    kilometers := 0, location := "", url := "", first_seen := 3, last_seen := 4,
    title := some "", description := none }

/-- Fragment for the C7 counterexample: the inline `data-price` attribute
carries the string `-1`, which `int(...)` accepts. -/
def exFrag7 : Fragment := { idAttr := "X7", dataPrice := some "-1" }

/-- The record extraction produces for `exFrag7`: its price is negative. -/
def exRec7 : CarListing :=
  { id := "X7", make := "Volkswagen", model := "T5", price := -1, year := 0,
    kilometers := 0, location := "", url := "", first_seen := 5, last_seen := 5,
    title := some "", description := none }

/-- Fragment for the amended C7 witness: identifier only. -/
def exFrag7w : Fragment := { idAttr := "W7" }

/-- The record extraction produces for `exFrag7w`. -/
def exRec7w : CarListing :=
  { id := "W7", make := "Volkswagen", model := "T5", price := 0, year := 0,
    kilometers := 0, location := "", url := "", first_seen := 1, last_seen := 2,
    title := some "", description := none }

/-! ### Page partitioning inside `AutoScoutScraper.search` -/

/-- One fetched search-results page, as `AutoScoutScraper.search` reads it
after the HTTP response: the `listHeaderTitle` string if the regex finds one,
the `article` elements in document order, the two alternative selections
tried when no `article` exists (`[data-testid=listing-item]` and
`.ListItem_article`), and the articles of the `ListPage_main` and
`Recommendations_recommendations` sections when those `div`s exist.  (The
recommendations section is only logged by the source; it does not affect the
result.) -/
structure Page where
  listHeaderTitle : Option String := none
  articles : List Fragment := []
  altListingItems : List Fragment := []
  altListItemArticles : List Fragment := []
  mainContentArticles : Option (List Fragment) := none
  recommendationsArticles : Option (List Fragment) := none
deriving DecidableEq

/-- Did the source's early `if total_results == 0: return []` fire?  It does
exactly when the header title was found and its first number parses to 0. -/
def headerZero (page : Page) : Bool :=
  match page.listHeaderTitle with
  | some h =>
    match extractNumber h with
    | some 0 => true
    | _ => false
  | none => false

/-- The `total_results` value after the header block: the parsed number when
one was found, otherwise the initial 0. -/
def headerTotal (page : Page) : Nat :=
  match page.listHeaderTitle with
  | some h => (extractNumber h).getD 0
  | none => 0

/-- The `main_listings` list the `search` body hands to per-fragment
extraction (`src/src/scraper/autoscout.py`, lines 217-333): the zero-total
early return; the article selection with its two alternative selectors; the
main-content / ancestor-walk classification; the fail-open step when no main
listing was found but the reported total is positive; and the truncation of
the primary fragments to the reported total. -/
def searchKeptFragments (page : Page) : List Fragment :=
  if headerZero page then []
  else
    let listing_elements :=
      if !page.articles.isEmpty then page.articles
      else if !page.altListingItems.isEmpty then page.altListingItems
      else page.altListItemArticles
    if listing_elements.isEmpty then []
    else
      let mainListings0 :=
        match page.mainContentArticles with
        | some arts => arts
        | none => listing_elements.filter (fun f => !f.ancestorRecommendation)
      let mainListings1 :=
        if mainListings0.isEmpty ∧ 0 < headerTotal page then listing_elements
        else mainListings0
      if 0 < headerTotal page ∧ headerTotal page < mainListings1.length then
        mainListings1.take (headerTotal page)
      else mainListings1

/-- A plain primary fragment present on the example pages. -/
def exFragPlain : Fragment := { idAttr := "P1" }

/-- A page whose header reports 0 results while one article fragment is
present. -/
def exPageZero : Page :=
  { listHeaderTitle := some "0 Angebote", articles := [exFragPlain] }

/-! ### Title cleanup in `TelegramNotifier._format_listing_message` -/

/-- Python's `s.split()` with no argument: split on whitespace runs, dropping
empty pieces; `acc` holds the current word reversed. -/
def wordsAux : List Char → List Char → List (List Char)
  | [], acc => if acc.isEmpty then [] else [acc.reverse]
  | c :: cs, acc =>
    if c.isWhitespace then
      if acc.isEmpty then wordsAux cs [] else acc.reverse :: wordsAux cs []
    else wordsAux cs (c :: acc)

/-- `' '.join(words)`. -/
def joinSpace : List (List Char) → List Char
  | [] => []
  | [w] => w
  | w :: ws => w ++ ' ' :: joinSpace ws

/-- `' '.join(title.split())`: collapse whitespace runs to single spaces. -/
def collapseWsL (cs : List Char) : List Char :=
  joinSpace (wordsAux cs [])

/-- Python's `s.replace(pat, '')`: remove all left-to-right non-overlapping
occurrences of `pat`.  The fuel is the input length, which suffices since
each step consumes at least one character. -/
def replaceAllFuel (pat : List Char) : Nat → List Char → List Char
  | _, [] => []
  | 0, l => l
  | Nat.succ f, c :: cs =>
    if !pat.isEmpty ∧ leadsWith pat (c :: cs) = true then
      replaceAllFuel pat f ((c :: cs).drop pat.length)
    else c :: replaceAllFuel pat f cs

/-- Occurrence removal at full fuel. -/
def replaceAll (pat cs : List Char) : List Char :=
  replaceAllFuel pat cs.length cs

/-- The emphasis-marker stripping chain
`.replace('****','').replace('***','').replace('**','').replace('*','')`. -/
def removeStarsL (cs : List Char) : List Char :=
  replaceAll ['*']
    (replaceAll ['*', '*']
      (replaceAll ['*', '*', '*']
        (replaceAll ['*', '*', '*', '*'] cs)))

/-- What remains after a matched pattern segment: drop the segment itself and
then the greedy trailing whitespace of the regex's final `\s*`. -/
def afterSeg (pat rest : List Char) : List Char :=
  (rest.drop pat.length).dropWhile Char.isWhitespace

/-- Backtracking of the `\s*` between make and model: try the largest number
of skipped whitespace characters first (regex greediness), down to zero. -/
def searchModelDesc (model rest : List Char) : Nat → Option (List Char)
  | 0 => if ciLeadsWith model rest then some (afterSeg model rest) else none
  | k + 1 =>
    if ciLeadsWith model (rest.drop (k + 1)) then some (afterSeg model (rest.drop (k + 1)))
    else searchModelDesc model rest k

/-- `re.sub(f"^{make}\\s*{model}\\s*", "", s, flags=re.IGNORECASE)`: the most
specific pattern of the cascade. -/
def applyMakeModel (make model cs : List Char) : List Char :=
  if ciLeadsWith make cs then
    match searchModelDesc model (cs.drop make.length)
        ((cs.drop make.length).takeWhile Char.isWhitespace).length with
    | some remainder => remainder
    | none => cs
  else cs

/-- `re.sub(f"^{make}{model}\\s*", "", s, flags=re.IGNORECASE)`. -/
def applyMakeModelJoined (make model cs : List Char) : List Char :=
  if ciLeadsWith (make ++ model) cs then afterSeg (make ++ model) cs else cs

/-- `re.sub(f"^{make}\\s*", "", s, flags=re.IGNORECASE)`. -/
def applyMakeOnly (make cs : List Char) : List Char :=
  if ciLeadsWith make cs then afterSeg make cs else cs

/-- The title-cleanup body of `_format_listing_message` for a non-blank title
(`src/src/notifier/notification.py`, lines 85-108): whitespace collapse, star
stripping, then the three-pattern loop whose `break` condition compares the
current string against the ORIGINAL `listing.title`; finally strip, and
substitute `make model` when empty. -/
def cleanTitleCore (make model title : String) : String :=
  let t1 := removeStarsL (collapseWsL title.data)
  let c1 := applyMakeModel make.data model.data t1
  let afterLoop :=
    if c1 ≠ title.data then c1
    else
      let c2 := applyMakeModelJoined make.data model.data c1
      if c2 ≠ title.data then c2
      else applyMakeOnly make.data c2
  if (trimWs afterLoop).isEmpty then make ++ " " ++ model
  else String.mk (trimWs afterLoop)

/-- The full title formatting: a missing or blank title short-circuits to
`make model`. -/
def format_title (make model : String) (title : Option String) : String :=
  match title with
  | some t =>
    if t ≠ "" ∧ ¬ (trimWs t.data).isEmpty then cleanTitleCore make model t
    else make ++ " " ++ model
  | none => make ++ " " ++ model

/-- Modelled from the spec: the cascade as §4.4 of the specification words it
- "try the most specific pattern first and stop at the first one that
actually changes the string", i.e. each break compares the string before and
after THAT pattern application (not against the original raw title). -/
def specCleanTitle (make model title : String) : String :=
  let t1 := removeStarsL (collapseWsL title.data)
  let c1 := applyMakeModel make.data model.data t1
  let afterLoop :=
    if c1 ≠ t1 then c1
    else
      let c2 := applyMakeModelJoined make.data model.data c1
      if c2 ≠ c1 then c2
      else applyMakeOnly make.data c2
  if (trimWs afterLoop).isEmpty then make ++ " " ++ model
  else String.mk (trimWs afterLoop)

/-! ### `AutoScoutScraper.build_search_url` -/

/-- The country-code `if`/`elif` chain: known codes map to their letter,
unknown codes contribute nothing. -/
def countryCode (c : String) : Option String :=
  if c = "AT" then some "A"
  else if c = "DE" then some "D"
  else if c = "BE" then some "B"
  else if c = "ES" then some "E"
  else if c = "FR" then some "F"
  else if c = "IT" then some "I"
  else if c = "LU" then some "L"
  else if c = "NL" then some "NL"
  else none

/-- Country-code list with the `if not country_codes:` fallback to all
supported countries. -/
def countryCodes (cs : List String) : List String :=
  if (cs.filterMap countryCode).isEmpty then ["D", "A", "B", "E", "F", "I", "L", "NL"]
  else cs.filterMap countryCode

/-- A conditionally emitted integer-valued query parameter: the source guards
each with Python truthiness (`if params.get(...)`), under which a missing
key, `None` and `0` all suppress the parameter. -/
def optInt (key : String) (v : Option Int) : List (String × String) :=
  match v with
  | some n => if n = 0 then [] else [(key, toString n)]
  | none => []

/-- A conditionally emitted string-valued query parameter: truthiness makes a
missing key, `None` and the empty string suppress it. -/
def optStr (key : String) (v : Option String) : List (String × String) :=
  match v with
  | some s => if s = "" then [] else [(key, s)]
  | none => []

/-- The `eq` parameters: one per equipment entry, emitted only when the
equipment list is present and non-empty (truthiness of a list). -/
def eqParams (v : Option (List Int)) : List (String × String) :=
  match v with
  | some l => if l.isEmpty then [] else l.map (fun e => ("eq", toString e))
  | none => []

/-- The search parameters handed to `build_search_url`, the `params` dict of
the source flattened: each nested `range.get('min')` chain collapses to one
optional field (`None` and a missing key behave identically under
truthiness).  `power_range` is accepted by `main.py` but never read by
`build_search_url`, so it is omitted. -/
structure SearchParams where
  make : String := ""
  models : List String := []
  countries : List String := []
  year_min : Option Int := none
  year_max : Option Int := none
  max_kilometers : Option Int := none
  price_min : Option Int := none
  price_max : Option Int := none
  search_id : Option String := none
  body_type : Option Int := none
  seats_min : Option Int := none
  seats_max : Option Int := none
  fuel_type : Option String := none
  transmission : Option String := none
  doors_min : Option Int := none
  doors_max : Option Int := none
  equipment : Option (List Int) := none
  color : Option Int := none
  zip : Option String := none
  zipr : Option Int := none
deriving DecidableEq

/-- The `query_params` list of `build_search_url`, in source order, as
key/value pairs (the source appends the already-formatted `f"key={value}"`
strings; the final URL joins them with `=` and `&`). -/
def buildQueryParams (p : SearchParams) : List (String × String) :=
  [("atype", "C")]
  ++ [("cy", String.intercalate "%2C" (countryCodes p.countries))]
  ++ [("damaged_listing", "exclude")]
  ++ [("desc", "0")]
  ++ optInt "fregfrom" p.year_min
  ++ optInt "fregto" p.year_max
  ++ optInt "kmto" p.max_kilometers
  ++ [("ocs_listing", "include")]
  ++ [("powertype", "kw")]
  ++ optInt "pricefrom" p.price_min
  ++ optInt "priceto" p.price_max
  ++ optStr "search_id" p.search_id
  ++ [("sort", "standard")]
  ++ [("source", "homepage_search-mask")]
  ++ [("ustate", "N%2CU")]
  ++ optInt "body" p.body_type
  ++ optInt "seatsfrom" p.seats_min
  ++ optInt "seatsto" p.seats_max
  ++ optStr "fuel" p.fuel_type
  ++ optStr "gear" p.transmission
  ++ optInt "doorfrom" p.doors_min
  ++ optInt "doorto" p.doors_max
  ++ eqParams p.equipment
  ++ optInt "color" p.color
  ++ optStr "zip" p.zip
  ++ optInt "zipr" p.zipr

/-- Lower-cased ASCII string, as Python's `str.lower()` behaves on the
make/model names involved. -/
def lowerStr (s : String) : String :=
  String.mk (s.data.map Char.toLower)

/-- The model path segment: a single model gets the `-(alle)` suffix exactly
for the T-series codes; several models use the first one with the suffix. -/
def modelPart (models : List String) : String :=
  match models with
  | [m] =>
    if lowerStr m = "t6" ∨ lowerStr m = "t5" ∨ lowerStr m = "t4" ∨ lowerStr m = "t3" then
      lowerStr m ++ "-(alle)"
    else lowerStr m
  | m :: _ :: _ => lowerStr m ++ "-(alle)"
  | [] => ""

/-- `AutoScoutScraper.build_search_url`: base path plus the query string. -/
def build_search_url (base_url : String) (p : SearchParams) : String :=
  (if modelPart p.models ≠ "" then
    base_url ++ "/lst/" ++ lowerStr p.make ++ "/" ++ modelPart p.models
  else base_url ++ "/lst/" ++ lowerStr p.make)
  ++ "?" ++ String.intercalate "&" ((buildQueryParams p).map (fun q => q.1 ++ "=" ++ q.2))

/-- Search parameters carrying a present, non-null minimum price of 0. -/
def exParamsZeroMin : SearchParams :=
  { make := "volkswagen", models := ["t5"], countries := ["DE"], price_min := some 0 }

theorem length_filter_not_add (p : CarListing → Bool) (l : List CarListing) :
    (l.filter (fun a => !(p a))).length + (l.filter p).length = l.length := by
  induction l with
  | nil => simp
  | cons a tl ih =>
    cases h : p a <;> simp [List.filter_cons, h] <;> omega

theorem get_add_listing_same (db : List CarListing) (r : CarListing) :
    get_listing (add_listing db r) r.id = some r := by
  induction db with
  | nil => simp [get_listing, add_listing]
  | cons a tl ih =>
    unfold get_listing add_listing at *
    cases h : (a.id == r.id) with
    | true => simp [List.filter_cons, h]
    | false => simp [List.filter_cons, h, List.find?]

theorem get_listing_some_id {db : List CarListing} {i : String} {ex : CarListing}
    (h : get_listing db i = some ex) : ex.id = i := by
  have h2 := List.find?_some h
  simpa using h2

/-- C1 counterexample: id `A` is stored with price 100 and is re-observed with
price 200; after the reconciliation step the stored record still has price 100
(and the old year, kilometers, location, url and title) - only `last_seen` was
set to the cycle time 7.  The mutable fields are NOT overwritten with the
latest observation, contradicting the claim. -/
theorem c1_counterexample :
    get_listing (processListing exDb1 exObsA 7).1 "A" =
      some { exStoredA with last_seen := 7 } ∧
    exObsA.price = 200 ∧ exStoredA.price = 100 ∧
    (processListing exDb1 exObsA 7).2.1 = Classification.updated ∧
    (processListing exDb1 exObsA 7).2.2 = false := by
  decide

/-- C1 (amended): for a re-observed id the step classifies `updated`, sends no
notification, and re-persists the STORED record with `last_seen` set to the
current time; all other stored fields are kept as previously stored rather
than being overwritten with the latest observation. -/
theorem c1_update_keeps_stored_fields (db : List CarListing) (obs : CarListing)
    (now : Nat) (ex : CarListing) (h : get_listing db obs.id = some ex) :
    processListing db obs now =
      (add_listing db { ex with last_seen := now }, Classification.updated, false) ∧
    get_listing (processListing db obs now).1 obs.id = some { ex with last_seen := now } := by
  have hid : ex.id = obs.id := get_listing_some_id h
  constructor
  · unfold processListing
    rw [h]
  · unfold processListing
    rw [h]
    have h3 := get_add_listing_same db { ex with last_seen := now }
    simpa [hid] using h3

/-- Witness for the amended C1 at the concrete one-row store. -/
theorem c1_update_witness :
    processListing exDb1 exObsA 7 =
      (add_listing exDb1 { exStoredA with last_seen := 7 }, Classification.updated, false) ∧
    get_listing (processListing exDb1 exObsA 7).1 exObsA.id =
      some { exStoredA with last_seen := 7 } :=
  c1_update_keeps_stored_fields exDb1 exObsA 7 exStoredA (by decide)

/-- C3: the removal pass with an empty `current_ids` deletes nothing and
reports 0 removed - the early `if not current_ids: return 0` fires. -/
theorem c3_empty_ids_no_removal (db : List CarListing) :
    remove_old_listings db [] = (0, db, false) :=
  rfl

/-- C4: with a non-empty `current_ids`, the removal pass reports exactly the
number of stored rows whose id is not among `current_ids`, keeps exactly the
rows whose id is among them, and removed + kept = stored. -/
theorem c4_removal_correctness (db : List CarListing) (ids : List String)
    (h : ids ≠ []) :
    (remove_old_listings db ids).1 =
      (db.filter (fun l => !(ids.contains l.id))).length ∧
    (∀ l, l ∈ (remove_old_listings db ids).2.1 ↔ (l ∈ db ∧ ids.contains l.id = true)) ∧
    (remove_old_listings db ids).1 + (remove_old_listings db ids).2.1.length = db.length := by
  have hne : ids.isEmpty = false := by
    cases ids with
    | nil => exact absurd rfl h
    | cons a tl => rfl
  refine ⟨?_, ?_, ?_⟩
  · simp [remove_old_listings, hne]
  · intro l
    simp [remove_old_listings, hne, List.mem_filter]
  · simp only [remove_old_listings, hne, Bool.not_false, if_true, Bool.false_eq_true,
      if_false, Bool.not_eq_true']
    exact length_filter_not_add (fun l => ids.contains l.id) db

/-- Witness for C4 at the store {A,B,C} with `current_ids = [A, C]`: exactly B
goes, count 1. -/
theorem c4_removal_witness :
    exIds2 ≠ [] ∧
    ((remove_old_listings exDb3 exIds2).1 =
        (exDb3.filter (fun l => !(exIds2.contains l.id))).length ∧
      (∀ l, l ∈ (remove_old_listings exDb3 exIds2).2.1 ↔
        (l ∈ exDb3 ∧ exIds2.contains l.id = true)) ∧
      (remove_old_listings exDb3 exIds2).1 +
        (remove_old_listings exDb3 exIds2).2.1.length = exDb3.length) :=
  ⟨by decide, c4_removal_correctness exDb3 exIds2 (by decide)⟩

/-- C5: `first_seen` is immutable under re-observation.  Over any sequence of
cycles all re-observing a stored id, the stored record keeps its original
`first_seen`, and its `last_seen` ends at the time of the last cycle. -/
theorem c5_first_seen_immutable (obs : List (CarListing × Nat)) :
    ∀ (db : List CarListing) (i : String) (ex : CarListing),
      get_listing db i = some ex →
      (∀ p ∈ obs, (p.1).id = i) →
      ∃ ex2, get_listing (processCycles db obs) i = some ex2 ∧
        ex2.first_seen = ex.first_seen ∧
        ((obs = [] ∧ ex2 = ex) ∨
          (∃ q, obs.getLast? = some q ∧ ex2.last_seen = q.2)) := by
  induction obs with
  | nil =>
    intro db i ex h _
    exact ⟨ex, by simpa [processCycles] using h, rfl, Or.inl ⟨rfl, rfl⟩⟩
  | cons p rest ih =>
    intro db i ex h hall
    have hpid : (p.1).id = i := hall p (by simp)
    have hstep : processListing db p.1 p.2 =
        (add_listing db { ex with last_seen := p.2 }, Classification.updated, false) := by
      unfold processListing
      rw [hpid, h]
    have hexid : ex.id = i := get_listing_some_id h
    have hget1 : get_listing (processListing db p.1 p.2).1 i =
        some { ex with last_seen := p.2 } := by
      rw [hstep]
      have h3 := get_add_listing_same db { ex with last_seen := p.2 }
      simpa [hexid] using h3
    have hrest : ∀ q ∈ rest, (q.1).id = i := fun q hq => hall q (by simp [hq])
    obtain ⟨ex2, hg, hfs, hlast⟩ :=
      ih (processListing db p.1 p.2).1 i { ex with last_seen := p.2 } hget1 hrest
    refine ⟨ex2, ?_, hfs, ?_⟩
    · simpa [processCycles, List.foldl_cons] using hg
    · rcases hlast with ⟨hnil, hex2⟩ | ⟨q, hq, hl⟩
      · subst hnil
        exact Or.inr ⟨p, rfl, by rw [hex2]⟩
      · cases rest with
        | nil => simp at hq
        | cons r rtl =>
          exact Or.inr ⟨q, by simpa [List.getLast?_cons_cons] using hq, hl⟩

/-- Witness for C5: two further cycles at times 7 and 9 leave `first_seen = 1`
and end with `last_seen = 9`. -/
theorem c5_first_seen_witness :
    ∃ ex2, get_listing (processCycles exDb1 exCycleObs) "A" = some ex2 ∧
      ex2.first_seen = exStoredA.first_seen ∧
      ((exCycleObs = [] ∧ ex2 = exStoredA) ∨
        (∃ q, exCycleObs.getLast? = some q ∧ ex2.last_seen = q.2)) :=
  c5_first_seen_immutable exCycleObs exDb1 "A" exStoredA (by decide) (by decide)

theorem fallback2_price_of_ne (e : Fragment) (km yr p : Int) (h : p ≠ 0) :
    (fallback2 e km yr p).2.2 = p := by
  unfold fallback2
  split
  · cases e.tracking with
    | none => rfl
    | some tr =>
      cases htr : tr.price with
      | none => simp [htr]
      | some pp => simp [htr, h]
  · rfl

theorem fallback3_of_ne (e : Fragment) (p : Int) (h : p ≠ 0) :
    fallback3 e p = p := by
  unfold fallback3
  simp [h]

/-- C6: when the inline `data-price` attribute parses to a non-zero value and
an embedded JSON source (tracking object with a price, or price object with a
formatted price) is also present, the extracted record's price is the
inline-attribute value - the JSON sources are consulted only while the price
is still 0. -/
theorem c6_inline_price_wins (base_url : String) (e : Fragment)
    (make model : String) (t1 t2 : Nat) (s : String) (p : Int) (r : CarListing)
    (hs : e.dataPrice = some s) (hp : pythonInt s = some p) (hnz : p ≠ 0)
    (_hjson : (∃ tr, e.tracking = some tr ∧ tr.price ≠ none) ∨
      (∃ po, e.priceObj = some po ∧ po.priceFormatted ≠ none))
    (hr : extract_listing_details base_url e make model t1 t2 = some r) :
    r.price = p := by
  have hap : attrPrice e = p := by simp [attrPrice, hs, hp]
  simp only [extract_listing_details] at hr
  split at hr
  · exact absurd hr (by simp)
  · injection hr with h2
    subst h2
    simp only [hap]
    rw [fallback2_price_of_ne e _ _ p hnz]
    exact fallback3_of_ne e p hnz

/-- Witness for C6 at `exFrag6` (inline price 500, tracking price 300): the
extracted price is 500. -/
theorem c6_inline_price_witness : exRec6.price = 500 :=
  c6_inline_price_wins "https://www.autoscout24.de" exFrag6 "Volkswagen" "T5"
    3 4 "500" 500 exRec6 rfl (by decide) (by decide)
    (Or.inl ⟨{ firstRegistration := none, mileage := none, price := some "300" },
      rfl, by decide⟩)
    (by decide)

/-- C7 counterexample: a fragment whose identifier resolves but whose
`data-price` attribute is the parseable string `-1` yields a record with a
negative price, contradicting the claimed non-negativity of all numeric
fields. -/
theorem c7_counterexample :
    extract_listing_details "b" exFrag7 "Volkswagen" "T5" 5 5 = some exRec7 ∧
    exRec7.price < 0 := by
  decide

theorem processVDetails_nonneg (l : List VDetail) :
    ∀ km yr : Int, 0 ≤ km → 0 ≤ yr →
      0 ≤ (processVDetails l km yr).1 ∧ 0 ≤ (processVDetails l km yr).2 := by
  induction l with
  | nil =>
    intro km yr h1 h2
    exact ⟨h1, h2⟩
  | cons d rest ih =>
    intro km yr h1 h2
    unfold processVDetails
    cases hdv : d.dataVal with
    | none => exact ih km yr h1 h2
    | some dat =>
      cases hic : d.iconName with
      | none => exact ih km yr h1 h2
      | some icon =>
        dsimp only
        by_cases hc1 : containsSeq "mileage".data icon.data = true ∧ km = 0
        · rw [if_pos hc1]
          by_cases hk : (digitsOnly dat.data).isEmpty = true
          · rw [if_pos hk]
            exact ih km yr h1 h2
          · rw [if_neg hk]
            exact ih _ yr (Int.natCast_nonneg _) h2
        · rw [if_neg hc1]
          by_cases hc2 : containsSeq "calendar".data icon.data = true ∧ yr = 0
          · rw [if_pos hc2]
            cases hy : searchSepYYYY '/' dat.data with
            | some y => exact ih km _ h1 (Int.natCast_nonneg _)
            | none =>
              cases hy2 : searchYYYY dat.data with
              | some y => exact ih km _ h1 (Int.natCast_nonneg _)
              | none => exact ih km yr h1 h2
          · rw [if_neg hc2]
            exact ih km yr h1 h2

theorem fallback1_nonneg (e : Fragment) (km yr price : Int)
    (h1 : 0 ≤ km) (h2 : 0 ≤ yr) :
    0 ≤ (fallback1 e km yr price).1 ∧ 0 ≤ (fallback1 e km yr price).2 := by
  unfold fallback1
  split
  · cases e.vehicleDetails with
    | none => exact ⟨h1, h2⟩
    | some details => exact processVDetails_nonneg details km yr h1 h2
  · exact ⟨h1, h2⟩

theorem fallback2_nonneg (e : Fragment) (km yr price : Int)
    (h1 : 0 ≤ km) (h2 : 0 ≤ yr) (h3 : 0 ≤ price)
    (htrm : ∀ tr, e.tracking = some tr → nonNegSrc tr.mileage)
    (htrp : ∀ tr, e.tracking = some tr → nonNegSrc tr.price) :
    0 ≤ (fallback2 e km yr price).1 ∧ 0 ≤ (fallback2 e km yr price).2.1 ∧
      0 ≤ (fallback2 e km yr price).2.2 := by
  unfold fallback2
  split
  · cases htr : e.tracking with
    | none => exact ⟨h1, h2, h3⟩
    | some tr =>
      dsimp only
      refine ⟨?_, ?_, ?_⟩
      · cases hm : tr.mileage with
        | none => exact h1
        | some m =>
          dsimp only
          split
          · cases hv : pythonInt m with
            | none => exact h1
            | some v => exact htrm tr htr m v hm hv
          · exact h1
      · cases hf : tr.firstRegistration with
        | none => exact h2
        | some fr =>
          dsimp only
          split
          · cases hy : searchSepYYYY '-' fr.data with
            | none => exact h2
            | some y => exact Int.natCast_nonneg _
          · exact h2
      · cases hpr : tr.price with
        | none => exact h3
        | some pp =>
          dsimp only
          split
          · cases hv : pythonInt pp with
            | none => exact h3
            | some v => exact htrp tr htr pp v hpr hv
          · exact h3
  · exact ⟨h1, h2, h3⟩

theorem fallback3_nonneg (e : Fragment) (price : Int) (h : 0 ≤ price) :
    0 ≤ fallback3 e price := by
  unfold fallback3
  split
  · cases e.priceObj with
    | none => exact h
    | some po =>
      dsimp only
      cases po.priceFormatted with
      | none => exact h
      | some pf =>
        dsimp only
        split
        · exact h
        · exact Int.natCast_nonneg _
  · exact h

theorem attrYear_nonneg (e : Fragment) : 0 ≤ attrYear e := by
  unfold attrYear
  cases e.dataFirstRegistration with
  | none => exact le_refl 0
  | some s =>
    dsimp only
    cases searchSepYYYY '-' s.data with
    | some y => exact Int.natCast_nonneg _
    | none =>
      dsimp only
      cases searchYYYY s.data with
      | some y => exact Int.natCast_nonneg _
      | none => exact le_refl 0

theorem attrKilometers_nonneg (e : Fragment) (h : nonNegSrc e.dataMileage) :
    0 ≤ attrKilometers e := by
  unfold attrKilometers
  cases hs : e.dataMileage with
  | none => exact le_refl 0
  | some s =>
    dsimp only
    cases hv : pythonInt s with
    | none => exact le_refl 0
    | some v => exact h s v hs hv

theorem attrPrice_nonneg (e : Fragment) (h : nonNegSrc e.dataPrice) :
    0 ≤ attrPrice e := by
  unfold attrPrice
  cases hs : e.dataPrice with
  | none => exact le_refl 0
  | some s =>
    dsimp only
    cases hv : pythonInt s with
    | none => exact le_refl 0
    | some v => exact h s v hs hv

/-- C7 (amended): for every fragment whose identifier resolves, extraction
returns a record whose year is non-negative, whose price and kilometers are
non-negative provided the inline numeric attributes and the tracking values
only parse to non-negative integers, and whose `first_seen <= last_seen`
holds whenever the first `datetime.now()` call does not exceed the second. -/
theorem c7_amended_nonneg (base_url : String) (e : Fragment)
    (make model : String) (t1 t2 : Nat) (r : CarListing)
    (ht : t1 ≤ t2)
    (hdp : nonNegSrc e.dataPrice) (hdm : nonNegSrc e.dataMileage)
    (htrm : ∀ tr, e.tracking = some tr → nonNegSrc tr.mileage)
    (htrp : ∀ tr, e.tracking = some tr → nonNegSrc tr.price)
    (hr : extract_listing_details base_url e make model t1 t2 = some r) :
    0 ≤ r.price ∧ 0 ≤ r.year ∧ 0 ≤ r.kilometers ∧ r.first_seen ≤ r.last_seen := by
  have h1 := attrKilometers_nonneg e hdm
  have h2 := attrYear_nonneg e
  have h3 := attrPrice_nonneg e hdp
  have hf1 := fallback1_nonneg e (attrKilometers e) (attrYear e) (attrPrice e) h1 h2
  have hf2 := fallback2_nonneg e
    (fallback1 e (attrKilometers e) (attrYear e) (attrPrice e)).1
    (fallback1 e (attrKilometers e) (attrYear e) (attrPrice e)).2
    (attrPrice e) hf1.1 hf1.2 h3 htrm htrp
  have hf3 := fallback3_nonneg e _ hf2.2.2
  simp only [extract_listing_details] at hr
  split at hr
  · exact absurd hr (by simp)
  · injection hr with h4
    subst h4
    exact ⟨hf3, hf2.2.1, hf2.1, ht⟩

/-- Witness for the amended C7 at a fragment with identifier only. -/
theorem c7_amended_witness :
    0 ≤ exRec7w.price ∧ 0 ≤ exRec7w.year ∧ 0 ≤ exRec7w.kilometers ∧
      exRec7w.first_seen ≤ exRec7w.last_seen :=
  c7_amended_nonneg "b" exFrag7w "Volkswagen" "T5" 1 2 exRec7w (by decide)
    (fun s v hs _ => by simp [exFrag7w] at hs)
    (fun s v hs _ => by simp [exFrag7w] at hs)
    (fun tr htr => by simp [exFrag7w] at htr)
    (fun tr htr => by simp [exFrag7w] at htr)
    (by decide)

/-- C2 counterexample: a page whose header reports a total of 0 while an
article fragment is present yields no kept fragments, although the very same
page with the header absent keeps that fragment - so the reported total IS
used as ground truth for which fragments to keep, and fragments are discarded
merely because the reported total is zero. -/
theorem c2_counterexample :
    exPageZero.articles ≠ [] ∧
    searchKeptFragments exPageZero = [] ∧
    searchKeptFragments { exPageZero with listHeaderTitle := none } = [exFragPlain] := by
  decide

/-- C2 (amended): the page-reported total is not merely a cross-check -
whenever the header is present and its number parses to 0, the search keeps
no fragments at all, regardless of the fragments on the page (and a positive
total additionally caps the kept primary fragments, cf. the truncation step
in `searchKeptFragments`). -/
theorem c2_zero_total_discards (page : Page) (h : String)
    (hh : page.listHeaderTitle = some h) (hz : extractNumber h = some 0) :
    searchKeptFragments page = [] := by
  unfold searchKeptFragments headerZero
  rw [hh]
  dsimp only
  rw [hz]
  rfl

/-- Witness for the amended C2 at the concrete zero-total page. -/
theorem c2_zero_total_witness : searchKeptFragments exPageZero = [] :=
  c2_zero_total_discards exPageZero "0 Angebote" rfl (by decide)

theorem suffix_eq_or_length_lt {α : Type} {s l : List α} (h : s <:+ l) :
    s = l ∨ s.length < l.length := by
  obtain ⟨t, ht⟩ := h
  subst ht
  cases t with
  | nil => exact Or.inl rfl
  | cons a tl =>
    right
    simp [List.length_append]
    omega

theorem afterSeg_suffix (pat rest : List Char) : afterSeg pat rest <:+ rest :=
  (List.dropWhile_suffix _).trans (List.drop_suffix _ _)

theorem searchModelDesc_suffix (md rest : List Char) :
    ∀ k rem, searchModelDesc md rest k = some rem → rem <:+ rest := by
  intro k
  induction k with
  | zero =>
    intro rem h
    unfold searchModelDesc at h
    split at h
    · injection h with h2
      subst h2
      exact afterSeg_suffix md rest
    · cases h
  | succ k ih =>
    intro rem h
    unfold searchModelDesc at h
    split at h
    · injection h with h2
      subst h2
      exact (afterSeg_suffix md (rest.drop (k + 1))).trans (List.drop_suffix _ _)
    · exact ih rem h

theorem applyMakeModel_suffix (mk md cs : List Char) :
    applyMakeModel mk md cs <:+ cs := by
  unfold applyMakeModel
  split
  · cases hs : searchModelDesc md (cs.drop mk.length)
        ((cs.drop mk.length).takeWhile Char.isWhitespace).length with
    | none => exact List.suffix_refl cs
    | some rem =>
      exact (searchModelDesc_suffix md (cs.drop mk.length) _ rem hs).trans
        (List.drop_suffix _ _)
  · exact List.suffix_refl cs

theorem joinSpace_cons_length (w : List Char) (ws : List (List Char)) :
    (joinSpace (w :: ws)).length ≤ w.length + 1 + (joinSpace ws).length := by
  cases ws with
  | nil => simp [joinSpace]
  | cons v vs =>
    simp [joinSpace, List.length_append]
    omega

theorem wordsAux_length (cs : List Char) :
    ∀ acc, (joinSpace (wordsAux cs acc)).length ≤ cs.length + acc.length := by
  induction cs with
  | nil =>
    intro acc
    unfold wordsAux
    split
    · simp [joinSpace]
    · simp [joinSpace]
  | cons c cs ih =>
    intro acc
    unfold wordsAux
    by_cases hw : c.isWhitespace = true
    · rw [if_pos hw]
      by_cases ha : acc.isEmpty = true
      · rw [if_pos ha]
        have h2 := ih []
        simp at h2
        simp [List.length_cons]
        omega
      · rw [if_neg ha]
        have h2 := joinSpace_cons_length acc.reverse (wordsAux cs [])
        have h3 := ih []
        simp at h3
        simp [List.length_cons]
        simp [List.length_reverse] at h2
        omega
    · rw [if_neg hw]
      have h2 := ih (c :: acc)
      simp [List.length_cons] at h2 ⊢
      omega

theorem collapseWsL_length (cs : List Char) : (collapseWsL cs).length ≤ cs.length := by
  have h := wordsAux_length cs []
  simpa [collapseWsL] using h

theorem replaceAllFuel_length (pat : List Char) :
    ∀ (f : Nat) (cs : List Char), (replaceAllFuel pat f cs).length ≤ cs.length := by
  intro f
  induction f with
  | zero =>
    intro cs
    cases cs <;> simp [replaceAllFuel]
  | succ f ih =>
    intro cs
    cases cs with
    | nil => simp [replaceAllFuel]
    | cons c tl =>
      unfold replaceAllFuel
      split
      · refine le_trans (ih _) ?_
        simp [List.length_drop]
      · simp [List.length_cons]
        exact ih tl

theorem removeStarsL_length (cs : List Char) : (removeStarsL cs).length ≤ cs.length := by
  unfold removeStarsL replaceAll
  exact le_trans (replaceAllFuel_length _ _ _)
    (le_trans (replaceAllFuel_length _ _ _)
      (le_trans (replaceAllFuel_length _ _ _) (replaceAllFuel_length _ _ _)))

/-- C8 counterexample: with make `Volkswagen`, model `T5` and raw title
`Volkswagen  Golf` (double space), the code's cascade stops after the first
pattern - which did NOT change the string - because the pre-cleanup already
made the string differ from the original title, and returns
`Volkswagen Golf`; the cascade described by the claim (stop at the first
pattern that actually changes the string) would go on to the third pattern
and return `Golf`. -/
theorem c8_counterexample :
    cleanTitleCore "Volkswagen" "T5" "Volkswagen  Golf" = "Volkswagen Golf" ∧
    specCleanTitle "Volkswagen" "T5" "Volkswagen  Golf" = "Golf" := by
  decide

/-- C8 (amended): the loop's break compares against the ORIGINAL raw title,
so whenever the whitespace-collapse and star-stripping pre-cleanup has
already changed the title, the cascade stops right after the first pattern
(whether or not it matched): the result is exactly the first pattern's
output, stripped, with `make model` substituted when empty. -/
theorem c8_break_on_original (make model title : String)
    (h : removeStarsL (collapseWsL title.data) ≠ title.data) :
    cleanTitleCore make model title =
      (if (trimWs (applyMakeModel make.data model.data
            (removeStarsL (collapseWsL title.data)))).isEmpty
       then make ++ " " ++ model
       else String.mk (trimWs (applyMakeModel make.data model.data
            (removeStarsL (collapseWsL title.data))))) := by
  have hlen : (removeStarsL (collapseWsL title.data)).length ≤ title.data.length :=
    le_trans (removeStarsL_length _) (collapseWsL_length _)
  have hsuf := applyMakeModel_suffix make.data model.data
    (removeStarsL (collapseWsL title.data))
  have hne : applyMakeModel make.data model.data
      (removeStarsL (collapseWsL title.data)) ≠ title.data := by
    rcases suffix_eq_or_length_lt hsuf with heq | hlt
    · rw [heq]
      exact h
    · intro hc
      rw [hc] at hlt
      omega
  simp only [cleanTitleCore]
  rw [if_pos hne]

/-- Witness for the amended C8 at the concrete diverging title. -/
theorem c8_break_witness :
    cleanTitleCore "Volkswagen" "T5" "Volkswagen  Golf" =
      (if (trimWs (applyMakeModel "Volkswagen".data "T5".data
            (removeStarsL (collapseWsL "Volkswagen  Golf".data)))).isEmpty
       then "Volkswagen" ++ " " ++ "T5"
       else String.mk (trimWs (applyMakeModel "Volkswagen".data "T5".data
            (removeStarsL (collapseWsL "Volkswagen  Golf".data))))) :=
  c8_break_on_original "Volkswagen" "T5" "Volkswagen  Golf" (by decide)

theorem mem_optInt (k q v : String) (o : Option Int) :
    ((q, v) ∈ optInt k o) ↔ (q = k ∧ ∃ n, o = some n ∧ ¬ n = 0 ∧ v = toString n) := by
  cases o with
  | none => simp [optInt]
  | some n =>
    by_cases h : n = 0
    · simp [optInt, h]
    · simp [optInt, h, Prod.ext_iff]

theorem mem_optStr (k q v : String) (o : Option String) :
    ((q, v) ∈ optStr k o) ↔ (q = k ∧ o = some v ∧ ¬ v = "") := by
  cases o with
  | none => simp [optStr]
  | some s =>
    by_cases h : s = ""
    · subst h
      simp [optStr]
      exact fun _ h2 => h2.symm
    · simp [optStr, h, Prod.ext_iff]
      aesop

theorem mem_eqParams (q v : String) (o : Option (List Int)) :
    ((q, v) ∈ eqParams o) ↔
      (q = "eq" ∧ ∃ l, o = some l ∧ ¬ l = [] ∧ ∃ e ∈ l, v = toString e) := by
  cases o with
  | none => simp [eqParams]
  | some l =>
    by_cases h : l.isEmpty
    · have h2 : l = [] := by simpa [List.isEmpty_iff] using h
      simp [eqParams, h, h2]
    · have h2 : ¬ l = [] := by simpa [List.isEmpty_iff] using h
      simp [eqParams, h, h2, List.mem_map, Prod.ext_iff]
      tauto

theorem exists_mem_iff_ne_nil {α : Type} (l : List α) : (∃ e, e ∈ l) ↔ ¬ l = [] := by
  cases l with
  | nil => simp
  | cons a tl => simp

/-- C9 counterexample: the search parameters `exParamsZeroMin` carry a
present, non-null minimum price of 0, yet no `pricefrom` parameter appears
among the built query parameters - a present value of 0 is dropped by the
truthiness guard, so presence/non-nullness is not what governs emission. -/
theorem c9_counterexample :
    exParamsZeroMin.price_min = some 0 ∧
    (buildQueryParams exParamsZeroMin).map Prod.fst =
      ["atype", "cy", "damaged_listing", "desc", "ocs_listing", "powertype",
       "sort", "source", "ustate"] := by
  decide

/-- C9 (amended): each optional filter's query parameter appears in the built
URL's parameter list if and only if the filter is present AND truthy - a
non-null, non-zero number, a non-empty string, a non-empty list.  A present
bound of 0 (or empty string/list) is treated like absence and suppressed. -/
theorem c9_truthy_params (p : SearchParams) :
    ((∃ v, ("pricefrom", v) ∈ buildQueryParams p) ↔ (∃ n, p.price_min = some n ∧ ¬ n = 0)) ∧
    ((∃ v, ("priceto", v) ∈ buildQueryParams p) ↔ (∃ n, p.price_max = some n ∧ ¬ n = 0)) ∧
    ((∃ v, ("fregfrom", v) ∈ buildQueryParams p) ↔ (∃ n, p.year_min = some n ∧ ¬ n = 0)) ∧
    ((∃ v, ("fregto", v) ∈ buildQueryParams p) ↔ (∃ n, p.year_max = some n ∧ ¬ n = 0)) ∧
    ((∃ v, ("kmto", v) ∈ buildQueryParams p) ↔ (∃ n, p.max_kilometers = some n ∧ ¬ n = 0)) ∧
    ((∃ v, ("seatsfrom", v) ∈ buildQueryParams p) ↔ (∃ n, p.seats_min = some n ∧ ¬ n = 0)) ∧
    ((∃ v, ("seatsto", v) ∈ buildQueryParams p) ↔ (∃ n, p.seats_max = some n ∧ ¬ n = 0)) ∧
    ((∃ v, ("doorfrom", v) ∈ buildQueryParams p) ↔ (∃ n, p.doors_min = some n ∧ ¬ n = 0)) ∧
    ((∃ v, ("doorto", v) ∈ buildQueryParams p) ↔ (∃ n, p.doors_max = some n ∧ ¬ n = 0)) ∧
    ((∃ v, ("body", v) ∈ buildQueryParams p) ↔ (∃ n, p.body_type = some n ∧ ¬ n = 0)) ∧
    ((∃ v, ("fuel", v) ∈ buildQueryParams p) ↔ (∃ s, p.fuel_type = some s ∧ ¬ s = "")) ∧
    ((∃ v, ("gear", v) ∈ buildQueryParams p) ↔ (∃ s, p.transmission = some s ∧ ¬ s = "")) ∧
    ((∃ v, ("eq", v) ∈ buildQueryParams p) ↔ (∃ l, p.equipment = some l ∧ ¬ l = [])) ∧
    ((∃ v, ("color", v) ∈ buildQueryParams p) ↔ (∃ n, p.color = some n ∧ ¬ n = 0)) ∧
    ((∃ v, ("zip", v) ∈ buildQueryParams p) ↔ (∃ s, p.zip = some s ∧ ¬ s = "")) ∧
    ((∃ v, ("zipr", v) ∈ buildQueryParams p) ↔ (∃ n, p.zipr = some n ∧ ¬ n = 0)) := by
  refine ⟨?_, ?_, ?_, ?_, ?_, ?_, ?_, ?_, ?_, ?_, ?_, ?_, ?_, ?_, ?_, ?_⟩ <;>
    simp [buildQueryParams, mem_optInt, mem_optStr, mem_eqParams, Prod.ext_iff]
  all_goals (try (rw [exists_comm]; simp [exists_mem_iff_ne_nil]))
  constructor
  · rintro ⟨b, h1, h2, _⟩
    exact ⟨b, h1, h2⟩
  · rintro ⟨l, h1, h2⟩
    rcases List.exists_mem_of_ne_nil l h2 with ⟨e, he⟩
    exact ⟨l, h1, h2, toString e, e, he, rfl⟩

/-- C10: the unconditional `DELETE FROM listings` arm is unreachable (the flag
is always `false`), and no row whose id is in `current_ids` is ever removed. -/
theorem c10_wipe_branch_unreachable (db : List CarListing) (ids : List String) :
    (remove_old_listings db ids).2.2 = false ∧
    (∀ l, l ∈ db → ids.contains l.id = true → l ∈ (remove_old_listings db ids).2.1) := by
  cases hid : ids.isEmpty with
  | true =>
    refine ⟨by simp [remove_old_listings, hid], ?_⟩
    intro l hl _
    simpa [remove_old_listings, hid] using hl
  | false =>
    refine ⟨by simp [remove_old_listings, hid], ?_⟩
    intro l hl hmem
    simp [remove_old_listings, hid, List.mem_filter]
    exact ⟨hl, by simpa using hmem⟩

/-- Witness for C10: at store {A,B,C} and ids [A, C], row A survives and the
wipe branch was not taken. -/
theorem c10_wipe_witness :
    (remove_old_listings exDb3 exIds2).2.2 = false ∧
    exStoredA ∈ (remove_old_listings exDb3 exIds2).2.1 :=
  ⟨(c10_wipe_branch_unreachable exDb3 exIds2).1,
    (c10_wipe_branch_unreachable exDb3 exIds2).2 exStoredA (by decide) (by decide)⟩

end AutoSearch
